import Mathlib

/-!
# Cookie-consent hooks of `assets/js/cookie-consent.js`

The file passes one configuration object to `window.cookieconsent.initialise`.
Besides cosmetic settings it carries three lifecycle hooks, `onInitialise`,
`onStatusChange` and `onRevokeChoice`.  Each hook reads `this.options.type`
(and the first two also `this.hasConsented()`), and makes at most two kinds of
outward call: `console.log(msg)` and `loadGAonConsent()`.

Embedding.  The outward calls a page has received so far are kept, oldest
first, in a `World`; a hook is a function `World → World` that appends the
calls it makes.  The receiver `this` is a `Popup`: the options object and the
value `this.hasConsented()` returns at the time of the call.
-/

set_option linter.unusedVariables false

namespace CookieConsent

/-! ## Data model -/

/-- An outward call made by a hook: `console.log(msg)` or `loadGAonConsent()`. -/
inductive Call where
  | consoleLog (msg : String)
  | loadGAonConsent
  deriving DecidableEq, Repr

/-- The calls received so far by the console and by the analytics loader,
oldest first. -/
structure World where
  calls : List Call
  deriving DecidableEq, Repr

/-- Colour pair of `palette.popup` and `palette.button`. -/
structure Colours where
  background : String
  text : String
  deriving DecidableEq, Repr

/-- The `palette` entry of the options object. -/
structure Palette where
  popup : Colours
  button : Colours
  deriving DecidableEq, Repr

/-- The `content` entry of the options object. -/
structure Content where
  message : String
  dismiss : String
  href : String
  deriving DecidableEq, Repr

/-- The data entries of the object handed to `cookieconsent.initialise`
(lines 2-18); the three hooks are the functions below. -/
structure Options where
  palette : Palette
  type : String
  content : Content
  deriving DecidableEq, Repr

/-- The receiver `this` of a hook, as far as the hooks read it:
`this.options` and the boolean that `this.hasConsented()` returns when the
hook runs (the widget library computes it; the hooks only read it). -/
structure Popup where
  options : Options
  hasConsented : Bool
  deriving DecidableEq, Repr

/-- The options literal of the file, lines 2-18. -/
def config : Options where
  palette :=
    { popup := { background := "#e3e9f2", text := "#002e40" }
      button := { background := "#002e40", text := "#ffffff" } }
  type := "opt-in"
  content :=
    { message := "This website uses cookies to improve your experience. We’ll assume you’re okay with this, but you can opt out if you wish. "
      dismiss := "Accept"
      href := "https://www.bgs.ac.uk/legal-and-policy/privacy/" }

/-- Options with the configured mode and other cosmetic entries. -/
def plainOptions : Options where
  palette :=
    { popup := { background := "#000000", text := "#ffffff" }
      button := { background := "#ffffff", text := "#000000" } }
  type := "opt-in"
  content := { message := "Cookies?", dismiss := "OK", href := "https://example.org/" }

/-- The configured options with the mode switched to `opt-out`. -/
def optOutConfig : Options :=
  { config with type := "opt-out" }

/-- The configured options with the mode switched to the widget's `info`. -/
def infoConfig : Options :=
  { config with type := "info" }

/-! ## Outward calls -/

/-- Effect of `console.log(msg)`: one more line on the console. -/
def consoleLog (msg : String) (w : World) : World :=
  { calls := w.calls ++ [Call.consoleLog msg] }

/-- Effect of `loadGAonConsent()`: one more call received by the loader. -/
def loadGAonConsent (w : World) : World :=
  { calls := w.calls ++ [Call.loadGAonConsent] }

/-! ## The three hooks (lines 19-56) -/

/-- Hook `onInitialise: function (status)`, lines 19-31. -/
def onInitialise (self : Popup) (status : String) (w : World) : World :=
  let type := self.options.type
  let didConsent := self.hasConsented
  let w :=
    if type == "opt-in" && didConsent then
      -- enable cookies
      loadGAonConsent (consoleLog "onInitialise 1" w)
    else w
  let w :=
    if type == "opt-out" && !didConsent then
      -- disable cookies
      consoleLog "onInitialise 2" w
    else w
  w

/-- Hook `onStatusChange: function (status, chosenBefore)`, lines 32-44. -/
def onStatusChange (self : Popup) (status : String) (chosenBefore : Bool)
    (w : World) : World :=
  let type := self.options.type
  let didConsent := self.hasConsented
  let w :=
    if type == "opt-in" && didConsent then
      -- enable cookies
      loadGAonConsent (consoleLog "onStatusChange 1" w)
    else w
  let w :=
    if type == "opt-out" && !didConsent then
      -- disable cookies
      consoleLog "onStatusChange 2" w
    else w
  w

/-- Hook `onRevokeChoice: function ()`, lines 45-56. -/
def onRevokeChoice (self : Popup) (w : World) : World :=
  let type := self.options.type
  let w :=
    if type == "opt-in" then
      -- disable cookies
      consoleLog "onRevokeChoice 1" w
    else w
  let w :=
    if type == "opt-out" then
      -- enable cookies
      loadGAonConsent (consoleLog "onRevokeChoice 2" w)
    else w
  w

/-! ## Observations -/

/-- Number of `loadGAonConsent()` calls in a list of calls. -/
def loaderCalls (cs : List Call) : Nat :=
  cs.count Call.loadGAonConsent

/-- Number of `loadGAonConsent()` calls a world has received. -/
def World.loads (w : World) : Nat :=
  loaderCalls w.calls

/-! ## Sessions

The widget library runs the hooks synchronously, one at a time.  A session is
the list of hook calls it makes on one page, each with the consent decision
in force at that moment; the policy mode is fixed by the options. -/

/-- The three extension points, with the arguments the library passes. -/
inductive Trigger where
  | initialLoad (status : String)
  | statusChange (status : String) (chosenBefore : Bool)
  | revokeChoice
  deriving DecidableEq, Repr

/-- The hook the library calls at a trigger. -/
def fire (t : Trigger) (self : Popup) (w : World) : World :=
  match t with
  | Trigger.initialLoad status => onInitialise self status w
  | Trigger.statusChange status chosenBefore => onStatusChange self status chosenBefore w
  | Trigger.revokeChoice => onRevokeChoice self w

/-- A trigger together with the value `hasConsented()` has when it fires. -/
structure Event where
  trigger : Trigger
  consent : Bool
  deriving DecidableEq, Repr

/-- Runs the hooks of a list of events in order, starting from `w`. -/
def runSession (opts : Options) : List Event → World → World
  | [], w => w
  | e :: es, w => runSession opts es (fire e.trigger { options := opts, hasConsented := e.consent } w)

/-! ## Shared lemmas: the calls each hook appends -/

theorem onInitialise_calls (self : Popup) (status : String) (w : World) :
    onInitialise self status w =
      { calls := w.calls ++
          (if self.options.type = "opt-in" ∧ self.hasConsented = true then
            [Call.consoleLog "onInitialise 1", Call.loadGAonConsent]
           else if self.options.type = "opt-out" ∧ self.hasConsented = false then
            [Call.consoleLog "onInitialise 2"]
           else []) } := by
  unfold onInitialise
  by_cases h1 : self.options.type = "opt-in"
  · by_cases hc : self.hasConsented = true
    · simp [h1, hc, loadGAonConsent, consoleLog]
    · simp [h1, hc, loadGAonConsent, consoleLog]
  · by_cases h2 : self.options.type = "opt-out"
    · by_cases hc : self.hasConsented = true
      · simp [h2, hc, loadGAonConsent, consoleLog]
      · simp [h2, hc, loadGAonConsent, consoleLog]
    · simp [h1, h2, loadGAonConsent, consoleLog]

theorem onStatusChange_calls (self : Popup) (status : String) (chosenBefore : Bool)
    (w : World) :
    onStatusChange self status chosenBefore w =
      { calls := w.calls ++
          (if self.options.type = "opt-in" ∧ self.hasConsented = true then
            [Call.consoleLog "onStatusChange 1", Call.loadGAonConsent]
           else if self.options.type = "opt-out" ∧ self.hasConsented = false then
            [Call.consoleLog "onStatusChange 2"]
           else []) } := by
  unfold onStatusChange
  by_cases h1 : self.options.type = "opt-in"
  · by_cases hc : self.hasConsented = true
    · simp [h1, hc, loadGAonConsent, consoleLog]
    · simp [h1, hc, loadGAonConsent, consoleLog]
  · by_cases h2 : self.options.type = "opt-out"
    · by_cases hc : self.hasConsented = true
      · simp [h2, hc, loadGAonConsent, consoleLog]
      · simp [h2, hc, loadGAonConsent, consoleLog]
    · simp [h1, h2, loadGAonConsent, consoleLog]

theorem onRevokeChoice_calls (self : Popup) (w : World) :
    onRevokeChoice self w =
      { calls := w.calls ++
          (if self.options.type = "opt-in" then [Call.consoleLog "onRevokeChoice 1"]
           else if self.options.type = "opt-out" then
            [Call.consoleLog "onRevokeChoice 2", Call.loadGAonConsent]
           else []) } := by
  unfold onRevokeChoice
  by_cases h1 : self.options.type = "opt-in"
  · simp [h1, loadGAonConsent, consoleLog]
  · by_cases h2 : self.options.type = "opt-out"
    · simp [h2, loadGAonConsent, consoleLog]
    · simp [h1, h2, loadGAonConsent, consoleLog]

theorem loads_mk_append (a b : List Call) :
    World.loads { calls := a ++ b } = loaderCalls a + loaderCalls b := by
  simp [World.loads, loaderCalls, List.count_append]

/-- A hook only appends: what it adds to `w` is what it adds to the empty
world. -/
theorem fire_frame (t : Trigger) (self : Popup) (w : World) :
    fire t self w = { calls := w.calls ++ (fire t self { calls := [] }).calls } := by
  cases t with
  | initialLoad status =>
    simp only [fire]
    rw [onInitialise_calls self status w, onInitialise_calls self status { calls := [] }]
    simp
  | statusChange status chosenBefore =>
    simp only [fire]
    rw [onStatusChange_calls self status chosenBefore w,
      onStatusChange_calls self status chosenBefore { calls := [] }]
    simp
  | revokeChoice =>
    simp only [fire]
    rw [onRevokeChoice_calls self w, onRevokeChoice_calls self { calls := [] }]
    simp

theorem fire_loads (t : Trigger) (self : Popup) (w : World) :
    (fire t self w).loads = w.loads + (fire t self { calls := [] }).loads := by
  rw [fire_frame t self w, loads_mk_append]
  rfl

/-- Loader calls made by an `onInitialise` started on the empty world. -/
theorem initialLoad_loads (self : Popup) (status : String) :
    (fire (Trigger.initialLoad status) self { calls := [] }).loads =
      if self.options.type = "opt-in" ∧ self.hasConsented = true then 1 else 0 := by
  simp only [fire]
  rw [onInitialise_calls, loads_mk_append]
  by_cases h : self.options.type = "opt-in" ∧ self.hasConsented = true
  · simp [h, loaderCalls]
  · rw [if_neg h, if_neg h]
    split <;> simp [loaderCalls]

/-- Loader calls made by an `onStatusChange` started on the empty world. -/
theorem statusChange_loads (self : Popup) (status : String) (chosenBefore : Bool) :
    (fire (Trigger.statusChange status chosenBefore) self { calls := [] }).loads =
      if self.options.type = "opt-in" ∧ self.hasConsented = true then 1 else 0 := by
  simp only [fire]
  rw [onStatusChange_calls, loads_mk_append]
  by_cases h : self.options.type = "opt-in" ∧ self.hasConsented = true
  · simp [h, loaderCalls]
  · rw [if_neg h, if_neg h]
    split <;> simp [loaderCalls]

/-- Loader calls made by an `onRevokeChoice` started on the empty world. -/
theorem revokeChoice_loads (self : Popup) :
    (fire Trigger.revokeChoice self { calls := [] }).loads =
      if self.options.type = "opt-out" then 1 else 0 := by
  simp only [fire]
  rw [onRevokeChoice_calls, loads_mk_append]
  by_cases h1 : self.options.type = "opt-in"
  · simp [h1, loaderCalls]
  · by_cases h2 : self.options.type = "opt-out"
    · simp [h2, loaderCalls]
    · simp [h1, h2, loaderCalls]

/-! ## Decision table of the three hooks -/

/-- C1: for every policy mode and every consent value, `onInitialise` keeps
the calls made so far and appends calls among which `loadGAonConsent` occurs
exactly once when the mode is `opt-in` and consent is true, and not at all in
every other case (opt-in/false, opt-out/true, opt-out/false, any other mode). -/
theorem onInitialise_loader_calls (self : Popup) (status : String) (w : World) :
    ∃ delta : List Call,
      onInitialise self status w = { calls := w.calls ++ delta } ∧
      loaderCalls delta =
        (if self.options.type = "opt-in" ∧ self.hasConsented = true then 1 else 0) := by
  refine ⟨_, onInitialise_calls self status w, ?_⟩
  by_cases h : self.options.type = "opt-in" ∧ self.hasConsented = true
  · simp [h, loaderCalls]
  · rw [if_neg h, if_neg h]
    split <;> simp [loaderCalls]

/-- C2: for every policy mode, every consent value and every value of the
`status` and `chosenBefore` arguments, `onStatusChange` keeps the calls made
so far and appends calls among which `loadGAonConsent` occurs exactly once
when the mode is `opt-in` and consent is true, and not at all otherwise. -/
theorem onStatusChange_loader_calls (self : Popup) (status : String)
    (chosenBefore : Bool) (w : World) :
    ∃ delta : List Call,
      onStatusChange self status chosenBefore w = { calls := w.calls ++ delta } ∧
      loaderCalls delta =
        (if self.options.type = "opt-in" ∧ self.hasConsented = true then 1 else 0) := by
  refine ⟨_, onStatusChange_calls self status chosenBefore w, ?_⟩
  by_cases h : self.options.type = "opt-in" ∧ self.hasConsented = true
  · simp [h, loaderCalls]
  · rw [if_neg h, if_neg h]
    split <;> simp [loaderCalls]

/-- C3: for every consent value, `onRevokeChoice` appends calls among which
`loadGAonConsent` occurs exactly once when the mode is `opt-out` and not at
all when the mode is `opt-in`; the resulting world is the same for both
consent values. -/
theorem onRevokeChoice_loader_calls (opts : Options) (consent : Bool) (w : World) :
    (∃ delta : List Call,
      onRevokeChoice { options := opts, hasConsented := consent } w
        = { calls := w.calls ++ delta } ∧
      loaderCalls delta = (if opts.type = "opt-out" then 1 else 0) ∧
      (opts.type = "opt-in" → loaderCalls delta = 0)) ∧
    onRevokeChoice { options := opts, hasConsented := consent } w
      = onRevokeChoice { options := opts, hasConsented := !consent } w := by
  refine ⟨⟨_, onRevokeChoice_calls _ w, ?_, ?_⟩, ?_⟩
  · by_cases h1 : opts.type = "opt-in"
    · simp [h1, loaderCalls]
    · by_cases h2 : opts.type = "opt-out"
      · simp [h2, loaderCalls]
      · simp [h1, h2, loaderCalls]
  · intro h1
    simp [h1, loaderCalls]
  · rw [onRevokeChoice_calls, onRevokeChoice_calls]

/-- C4: in `opt-in` mode, a session of initial-load, status-change and
revoke-choice triggers in which consent is false at every trigger never calls
`loadGAonConsent`; and at any trigger, from any world, a hook that does call
the loader was run with consent true. -/
theorem optIn_loader_needs_consent (opts : Options) (hmode : opts.type = "opt-in")
    (es : List Event) (hdenied : ∀ e ∈ es, e.consent = false) (w : World) :
    (runSession opts es w).loads = w.loads ∧
    ∀ (t : Trigger) (c : Bool) (v : World),
      (fire t { options := opts, hasConsented := c } v).loads ≠ v.loads → c = true := by
  have step : ∀ (t : Trigger) (v : World),
      (fire t { options := opts, hasConsented := false } v).loads = v.loads := by
    intro t v
    rw [fire_loads]
    cases t with
    | initialLoad status => rw [initialLoad_loads]; simp
    | statusChange status chosenBefore => rw [statusChange_loads]; simp
    | revokeChoice => rw [revokeChoice_loads]; simp [hmode]
  constructor
  · induction es generalizing w with
    | nil => rfl
    | cons e es ih =>
      have he : e.consent = false := hdenied e (List.mem_cons_self e es)
      simp only [runSession]
      rw [ih (fun x hx => hdenied x (List.mem_cons_of_mem e hx)), he, step]
  · intro t c v hne
    cases c with
    | true => rfl
    | false => exact absurd (step t v) hne

/-- Witness for C4 at the configured options and a session of three denied
triggers. -/
theorem optIn_loader_needs_consent_witness :
    config.type = "opt-in" ∧
    (runSession config
      [⟨Trigger.initialLoad "deny", false⟩, ⟨Trigger.statusChange "deny" false, false⟩,
        ⟨Trigger.revokeChoice, false⟩] { calls := [] }).loads = 0 :=
  ⟨rfl, (optIn_loader_needs_consent config rfl
      [⟨Trigger.initialLoad "deny", false⟩, ⟨Trigger.statusChange "deny" false, false⟩,
        ⟨Trigger.revokeChoice, false⟩]
      (by decide) { calls := [] }).1⟩

/-- C5: each of the three hooks is a total function of the mode, the consent
value and the world: it returns a world (no error case exists), keeps the
calls made so far, and appends calls among which `loadGAonConsent` occurs
either not at all (NoOp) or exactly once (ActivateAnalytics). -/
theorem hook_total_at_most_one_load (t : Trigger) (self : Popup) (w : World) :
    ∃ delta : List Call,
      fire t self w = { calls := w.calls ++ delta } ∧
      (loaderCalls delta = 0 ∨ loaderCalls delta = 1) := by
  refine ⟨_, fire_frame t self w, ?_⟩
  have h : loaderCalls (fire t self { calls := [] }).calls
      = (fire t self { calls := [] }).loads := rfl
  rw [h]
  cases t with
  | initialLoad status => rw [initialLoad_loads]; split <;> simp
  | statusChange status chosenBefore => rw [statusChange_loads]; split <;> simp
  | revokeChoice => rw [revokeChoice_loads]; split <;> simp

/-! ## Repetition, determinism, frame -/

/-- C6: activation is not idempotent.  In a session every event of which is
qualifying (its hook, run on its own, calls the loader once), the loader is
called once per event, so `n` qualifying invocations make `n` loader calls;
in particular two successive `onStatusChange` calls in `opt-in` mode with
consent true call the loader twice. -/
theorem activation_not_idempotent (opts : Options) (es : List Event)
    (hq : ∀ e ∈ es,
      (fire e.trigger { options := opts, hasConsented := e.consent } { calls := [] }).loads = 1)
    (w : World) :
    (runSession opts es w).loads = w.loads + es.length ∧
    ∀ (s₁ s₂ : String) (c₁ c₂ : Bool),
      (onStatusChange { options := { opts with type := "opt-in" }, hasConsented := true } s₂ c₂
        (onStatusChange { options := { opts with type := "opt-in" }, hasConsented := true }
          s₁ c₁ w)).loads = w.loads + 2 := by
  constructor
  · induction es generalizing w with
    | nil => rfl
    | cons e es ih =>
      simp only [runSession, List.length_cons]
      rw [ih (fun x hx => hq x (List.mem_cons_of_mem e hx)), fire_loads,
        hq e (List.mem_cons_self e es)]
      omega
  · intro s₁ s₂ c₁ c₂
    rw [onStatusChange_calls, onStatusChange_calls]
    simp [World.loads, loaderCalls]

/-- Witness for C6: the configured `opt-in` options, consent given, two
status changes in a row. -/
theorem activation_not_idempotent_witness :
    (runSession config
      [⟨Trigger.statusChange "allow" false, true⟩, ⟨Trigger.statusChange "allow" true, true⟩]
      { calls := [] }).loads = 2 :=
  (activation_not_idempotent config
    [⟨Trigger.statusChange "allow" false, true⟩, ⟨Trigger.statusChange "allow" true, true⟩]
    (by decide) { calls := [] }).1

/-- C7: the hooks are stateless and deterministic.  Two receivers with equal
mode and equal consent make the same calls in each hook, whatever the other
options, whatever the `status` and `chosenBefore` arguments, and whatever
worlds (hence whatever earlier hook calls) they start from. -/
theorem hooks_depend_on_mode_and_consent_only (p q : Popup)
    (hmode : p.options.type = q.options.type) (hconsent : p.hasConsented = q.hasConsented)
    (s₁ s₂ : String) (c₁ c₂ : Bool) (w₁ w₂ : World) :
    ∃ dI dS dR : List Call,
      (onInitialise p s₁ w₁ = { calls := w₁.calls ++ dI } ∧
        onInitialise q s₂ w₂ = { calls := w₂.calls ++ dI }) ∧
      (onStatusChange p s₁ c₁ w₁ = { calls := w₁.calls ++ dS } ∧
        onStatusChange q s₂ c₂ w₂ = { calls := w₂.calls ++ dS }) ∧
      (onRevokeChoice p w₁ = { calls := w₁.calls ++ dR } ∧
        onRevokeChoice q w₂ = { calls := w₂.calls ++ dR }) := by
  refine ⟨_, _, _, ⟨onInitialise_calls p s₁ w₁, ?_⟩, ⟨onStatusChange_calls p s₁ c₁ w₁, ?_⟩,
    ⟨onRevokeChoice_calls p w₁, ?_⟩⟩
  · rw [onInitialise_calls q s₂ w₂, hmode, hconsent]
  · rw [onStatusChange_calls q s₂ c₂ w₂, hmode, hconsent]
  · rw [onRevokeChoice_calls q w₂, hmode]

/-- Witness for C7: configured options on a fresh page against other options
on a page where a revoke has already been logged. -/
theorem hooks_depend_on_mode_and_consent_only_witness :
    ∃ dI dS dR : List Call,
      (onInitialise ⟨config, true⟩ "allow" { calls := [] } = { calls := [] ++ dI } ∧
        onInitialise ⟨plainOptions, true⟩ "dismiss" { calls := [Call.consoleLog "onRevokeChoice 1"] }
          = { calls := [Call.consoleLog "onRevokeChoice 1"] ++ dI }) ∧
      (onStatusChange ⟨config, true⟩ "allow" false { calls := [] } = { calls := [] ++ dS } ∧
        onStatusChange ⟨plainOptions, true⟩ "dismiss" true
            { calls := [Call.consoleLog "onRevokeChoice 1"] }
          = { calls := [Call.consoleLog "onRevokeChoice 1"] ++ dS }) ∧
      (onRevokeChoice ⟨config, true⟩ { calls := [] } = { calls := [] ++ dR } ∧
        onRevokeChoice ⟨plainOptions, true⟩ { calls := [Call.consoleLog "onRevokeChoice 1"] }
          = { calls := [Call.consoleLog "onRevokeChoice 1"] ++ dR }) :=
  hooks_depend_on_mode_and_consent_only ⟨config, true⟩ ⟨plainOptions, true⟩ rfl rfl
    "allow" "dismiss" false true { calls := [] } { calls := [Call.consoleLog "onRevokeChoice 1"] }

/-- C8 as stated fails: with the configured options and consent given,
`onInitialise` writes the line `onInitialise 1` to the console before it calls
the loader, so the loader call is not its only outward call. -/
theorem console_output_counterexample :
    (onInitialise ⟨config, true⟩ "allow" { calls := [] }).calls
      = [Call.consoleLog "onInitialise 1", Call.loadGAonConsent] ∧
    ¬ (∀ c ∈ (onInitialise ⟨config, true⟩ "allow" { calls := [] }).calls,
        c = Call.loadGAonConsent) := by
  decide

/-- C8 amended: for each trigger, every mode and every consent value, a hook
keeps the calls made so far and makes either no outward call, or one
`console.log` call with one of the six fixed trace messages, or that
`console.log` call followed by the single loader call; nothing else is
produced. -/
theorem hook_calls_log_then_load (t : Trigger) (self : Popup) (w : World) :
    ∃ delta : List Call,
      fire t self w = { calls := w.calls ++ delta } ∧
      (delta = [] ∨
        ∃ msg ∈ ["onInitialise 1", "onInitialise 2", "onStatusChange 1", "onStatusChange 2",
            "onRevokeChoice 1", "onRevokeChoice 2"],
          delta = [Call.consoleLog msg] ∨
          delta = [Call.consoleLog msg, Call.loadGAonConsent]) := by
  refine ⟨_, fire_frame t self w, ?_⟩
  cases t with
  | initialLoad status =>
    simp only [fire]
    rw [onInitialise_calls]
    split_ifs <;> simp
  | statusChange status chosenBefore =>
    simp only [fire]
    rw [onStatusChange_calls]
    split_ifs <;> simp
  | revokeChoice =>
    simp only [fire]
    rw [onRevokeChoice_calls]
    split_ifs <;> simp

/-! ## Opt-out mode and other modes -/

/-- C9 as stated fails: in `opt-out` mode with consent given, `onInitialise`
on a fresh page leaves the loader uncalled, and the `onRevokeChoice` that
follows calls it once. -/
theorem optOut_counterexample :
    ((onInitialise ⟨optOutConfig, true⟩ "allow" { calls := [] }).loads = 0 ∧
      (onRevokeChoice ⟨optOutConfig, true⟩
        (onInitialise ⟨optOutConfig, true⟩ "allow" { calls := [] })).loads = 1) ∧
    ¬ (1 ≤ (onInitialise ⟨optOutConfig, true⟩ "allow" { calls := [] }).loads ∧
        (onRevokeChoice ⟨optOutConfig, true⟩
          (onInitialise ⟨optOutConfig, true⟩ "allow" { calls := [] })).loads
          = (onInitialise ⟨optOutConfig, true⟩ "allow" { calls := [] }).loads) := by
  decide

/-- C9 amended: in `opt-out` mode, whatever the consent values, once
`onInitialise` has run and as long as no revoke-choice trigger has occurred
(any number of status changes may have), the hooks have not called the loader;
the `onRevokeChoice` that follows calls it exactly once. -/
theorem optOut_loads_only_on_revoke (opts : Options) (hmode : opts.type = "opt-out")
    (status : String) (c₀ : Bool) (es : List Event)
    (hnorevoke : ∀ e ∈ es, e.trigger ≠ Trigger.revokeChoice) (c : Bool) (w : World) :
    (runSession opts (⟨Trigger.initialLoad status, c₀⟩ :: es) w).loads = w.loads ∧
    (onRevokeChoice { options := opts, hasConsented := c }
      (runSession opts (⟨Trigger.initialLoad status, c₀⟩ :: es) w)).loads = w.loads + 1 := by
  have step : ∀ (t : Trigger) (b : Bool) (v : World), t ≠ Trigger.revokeChoice →
      (fire t { options := opts, hasConsented := b } v).loads = v.loads := by
    intro t b v ht
    rw [fire_loads]
    cases t with
    | initialLoad s => rw [initialLoad_loads]; simp [hmode]
    | statusChange s k => rw [statusChange_loads]; simp [hmode]
    | revokeChoice => exact absurd rfl ht
  have quiet : ∀ (fs : List Event) (v : World),
      (∀ e ∈ fs, e.trigger ≠ Trigger.revokeChoice) → (runSession opts fs v).loads = v.loads := by
    intro fs
    induction fs with
    | nil => intro v _; rfl
    | cons e fs ih =>
      intro v hfs
      simp only [runSession]
      rw [ih _ (fun x hx => hfs x (List.mem_cons_of_mem e hx)),
        step _ _ _ (hfs e (List.mem_cons_self e fs))]
  have hall : ∀ e ∈ (⟨Trigger.initialLoad status, c₀⟩ :: es : List Event),
      e.trigger ≠ Trigger.revokeChoice := by
    intro e he
    rcases List.mem_cons.mp he with h | h
    · rw [h]; exact fun h' => Trigger.noConfusion h'
    · exact hnorevoke e h
  have hrevoke : ∀ v : World,
      (onRevokeChoice { options := opts, hasConsented := c } v).loads = v.loads + 1 := by
    intro v
    have h := fire_loads Trigger.revokeChoice { options := opts, hasConsented := c } v
    rw [revokeChoice_loads] at h
    simpa [fire, hmode] using h
  exact ⟨quiet _ w hall, by rw [hrevoke, quiet _ w hall]⟩

/-- Witness for C9 amended: `opt-out` options, an initial load with consent,
a status change to denied, then a revoke. -/
theorem optOut_loads_only_on_revoke_witness :
    (runSession optOutConfig
      [⟨Trigger.initialLoad "allow", true⟩, ⟨Trigger.statusChange "deny" true, false⟩]
      { calls := [] }).loads = 0 ∧
    (onRevokeChoice ⟨optOutConfig, false⟩
      (runSession optOutConfig
        [⟨Trigger.initialLoad "allow", true⟩, ⟨Trigger.statusChange "deny" true, false⟩]
        { calls := [] })).loads = 1 :=
  optOut_loads_only_on_revoke optOutConfig rfl "allow" true
    [⟨Trigger.statusChange "deny" true, false⟩] (by decide) false { calls := [] }

/-- C10: for every mode string that is neither `opt-in` nor `opt-out` and
every consent value, the three hooks return the world unchanged: no loader
call and no console line. -/
theorem other_modes_are_noops (self : Popup) (hin : self.options.type ≠ "opt-in")
    (hout : self.options.type ≠ "opt-out") (status : String) (chosenBefore : Bool)
    (w : World) :
    onInitialise self status w = w ∧
    onStatusChange self status chosenBefore w = w ∧
    onRevokeChoice self w = w := by
  refine ⟨?_, ?_, ?_⟩
  · rw [onInitialise_calls]; simp [hin, hout]
  · rw [onStatusChange_calls]; simp [hin, hout]
  · rw [onRevokeChoice_calls]; simp [hin, hout]

/-- Witness for C10: the widget's `info` mode, on a page that already has a
console line. -/
theorem other_modes_are_noops_witness :
    onInitialise ⟨infoConfig, true⟩ "dismiss" { calls := [Call.consoleLog "x"] }
      = { calls := [Call.consoleLog "x"] } ∧
    onStatusChange ⟨infoConfig, true⟩ "dismiss" false { calls := [Call.consoleLog "x"] }
      = { calls := [Call.consoleLog "x"] } ∧
    onRevokeChoice ⟨infoConfig, true⟩ { calls := [Call.consoleLog "x"] }
      = { calls := [Call.consoleLog "x"] } :=
  other_modes_are_noops ⟨infoConfig, true⟩ (by decide) (by decide) "dismiss" false
    { calls := [Call.consoleLog "x"] }

end CookieConsent
